import Mathlib

/-!
Shallow embedding of the messenger data-access layer
(app/models/cassandra_models.py, app/controllers/message_controller.py,
app/controllers/conversation_controller.py, table schema from
scripts/setup_db.py).

The four Cassandra tables are modelled as lists of rows.  An INSERT is an
upsert keyed by the primary key of the table (rows sharing the full primary
key are replaced).  A SELECT on a partition returns the rows of that
partition in clustering order (descending, as declared by the schema), which
the model realises by sorting with insertionSort before applying LIMIT.

Time stamps (datetime.utcnow) are modelled as natural numbers, uuid4 message
ids as natural-number tokens, and int(time.time() * 1000) as an integer
parameter: all are environmental inputs passed explicitly to the operations
that consume them.  Identifiers are integers, matching the bigint columns;
the Python modulo on integers agrees with Int.emod for a positive divisor,
which is what the Lean % on Int computes.
-/

/-- Row of messages_by_conversation:
PRIMARY KEY (conversation_id, created_at, message_id)
CLUSTERING ORDER BY (created_at DESC, message_id DESC). -/
structure MessageRow where
  conversation_id : Int
  created_at : Nat
  message_id : Nat
  sender_id : Int
  receiver_id : Int
  content : String
deriving Repr, DecidableEq

/-- Row of conversations_by_user:
PRIMARY KEY (user_id, last_message_at, conversation_id)
CLUSTERING ORDER BY (last_message_at DESC, conversation_id DESC). -/
structure SummaryRow where
  user_id : Int
  last_message_at : Nat
  conversation_id : Int
  other_user_id : Int
  last_message_content : String
deriving Repr, DecidableEq

/-- Row of conversation_metadata: PRIMARY KEY (conversation_id).
Non-key columns are nullable in Cassandra, hence Option. -/
structure MetadataRow where
  conversation_id : Int
  user1_id : Option Int
  user2_id : Option Int
  created_at : Option Nat
  last_message_at : Option Nat
  last_message_content : Option String
deriving Repr, DecidableEq

/-- Row of user_conversations_lookup: PRIMARY KEY ((user1_id, user2_id)). -/
structure LookupRow where
  user1_id : Int
  user2_id : Int
  conversation_id : Int
deriving Repr, DecidableEq

/-- The state of the four tables. -/
structure DB where
  messages_by_conversation : List MessageRow
  conversations_by_user : List SummaryRow
  conversation_metadata : List MetadataRow
  user_conversations_lookup : List LookupRow
deriving Repr, DecidableEq

/-- The empty store. -/
def emptyDB : DB := ⟨[], [], [], []⟩

/-- Primary-key equality for messages_by_conversation. -/
def messageKeyMatch (r x : MessageRow) : Bool :=
  x.conversation_id == r.conversation_id && x.created_at == r.created_at
    && x.message_id == r.message_id

/-- Cassandra INSERT into messages_by_conversation: upsert on the primary key. -/
def insertMessage (r : MessageRow) (t : List MessageRow) : List MessageRow :=
  r :: t.filter (fun x => !(messageKeyMatch r x))

/-- Primary-key equality for conversations_by_user. -/
def summaryKeyMatch (r x : SummaryRow) : Bool :=
  x.user_id == r.user_id && x.last_message_at == r.last_message_at
    && x.conversation_id == r.conversation_id

/-- Cassandra INSERT into conversations_by_user: upsert on the primary key,
which includes the last_message_at clustering column. -/
def insertSummary (r : SummaryRow) (t : List SummaryRow) : List SummaryRow :=
  r :: t.filter (fun x => !(summaryKeyMatch r x))

/-- Cassandra INSERT into conversation_metadata: upsert on conversation_id. -/
def insertMetadata (r : MetadataRow) (t : List MetadataRow) : List MetadataRow :=
  r :: t.filter (fun x => !(x.conversation_id == r.conversation_id))

/-- Cassandra INSERT into user_conversations_lookup: upsert on the pair key. -/
def insertLookup (r : LookupRow) (t : List LookupRow) : List LookupRow :=
  r :: t.filter (fun x => !(x.user1_id == r.user1_id && x.user2_id == r.user2_id))

/-- Cassandra UPDATE conversation_metadata SET last_message_at, last_message_content
WHERE conversation_id = cid.  UPDATE is an upsert: if no row with this key
exists, a row is created whose other non-key columns are null. -/
def updateMetadata (cid : Int) (ts : Nat) (content : String)
    (t : List MetadataRow) : List MetadataRow :=
  if t.any (fun x => x.conversation_id == cid) then
    t.map (fun x =>
      if x.conversation_id == cid then
        { x with last_message_at := some ts, last_message_content := some content }
      else x)
  else
    ⟨cid, none, none, none, some ts, some content⟩ :: t

/-- Clustering order of messages_by_conversation, as a ge-relation: a comes
no later than b in the partition when the key of a is at least the key of b
under (created_at DESC, message_id DESC). -/
def msgKeyGe (a b : MessageRow) : Prop :=
  b.created_at < a.created_at
    ∨ (b.created_at = a.created_at ∧ b.message_id ≤ a.message_id)

instance : DecidableRel msgKeyGe := fun a b => by
  unfold msgKeyGe; infer_instance

instance : IsTotal MessageRow msgKeyGe :=
  ⟨by intro a b; unfold msgKeyGe; omega⟩

instance : IsTrans MessageRow msgKeyGe :=
  ⟨by intro a b c; unfold msgKeyGe; omega⟩

/-- Clustering order of conversations_by_user:
(last_message_at DESC, conversation_id DESC). -/
def sumKeyGe (a b : SummaryRow) : Prop :=
  b.last_message_at < a.last_message_at
    ∨ (b.last_message_at = a.last_message_at ∧ b.conversation_id ≤ a.conversation_id)

instance : DecidableRel sumKeyGe := fun a b => by
  unfold sumKeyGe; infer_instance

instance : IsTotal SummaryRow sumKeyGe :=
  ⟨by intro a b; unfold sumKeyGe; omega⟩

instance : IsTrans SummaryRow sumKeyGe :=
  ⟨by intro a b c; unfold sumKeyGe; omega⟩

/-- Record returned by MessageModel.create_message and shaped by the message
read paths (message ids and timestamps are returned as their tokens; the
Python code stringifies them). -/
structure MessageRecord where
  message_id : Nat
  conversation_id : Int
  sender_id : Int
  receiver_id : Int
  content : String
  timestamp : Nat
deriving Repr, DecidableEq

/-- Row-to-record shaping used by both message read paths. -/
def msgRecOf (row : MessageRow) : MessageRecord :=
  ⟨row.message_id, row.conversation_id, row.sender_id, row.receiver_id,
    row.content, row.created_at⟩

/-- Canonicalization step of ConversationModel.create_or_get_conversation:
if user1_id > user2_id the two ids are swapped. -/
def canonicalPair (user1_id user2_id : Int) : Int × Int :=
  if user1_id > user2_id then (user2_id, user1_id) else (user1_id, user2_id)

/-- ConversationModel.create_or_get_conversation.  timestamp models the
datetime.utcnow() taken inside the function; now_ms models
int(time.time() * 1000).  Returns the conversation id and the new store. -/
def create_or_get_conversation (db : DB) (user1_id user2_id : Int)
    (timestamp : Nat) (now_ms : Int) : Int × DB :=
  let p := canonicalPair user1_id user2_id
  match db.user_conversations_lookup.find?
      (fun r => r.user1_id == p.1 && r.user2_id == p.2) with
  | some r => (r.conversation_id, db)
  | none =>
    let conversation_id := now_ms + p.1 * 1000 + p.2 % 1000
    let lk := insertLookup ⟨p.1, p.2, conversation_id⟩ db.user_conversations_lookup
    let db1 := { db with user_conversations_lookup := lk }
    let md := insertMetadata ⟨conversation_id, some p.1, some p.2, some timestamp, none, none⟩ db1.conversation_metadata
    let db2 := { db1 with conversation_metadata := md }
    (conversation_id, db2)

/-- MessageModel.create_message.  timestamp models the datetime.utcnow()
taken at the top of the function and message_id the generated uuid4;
conv_timestamp and now_ms feed the conversation-resolution call made when
conversation_id is absent. -/
def create_message (db : DB) (sender_id receiver_id : Int) (content : String)
    (conversation_id : Option Int) (timestamp : Nat) (message_id : Nat)
    (conv_timestamp : Nat) (now_ms : Int) : MessageRecord × DB :=
  let r0 : Int × DB :=
    match conversation_id with
    | none => create_or_get_conversation db sender_id receiver_id conv_timestamp now_ms
    | some c => (c, db)
  let cid := r0.1
  let db1 := r0.2
  let ml := insertMessage ⟨cid, timestamp, message_id, sender_id, receiver_id, content⟩ db1.messages_by_conversation
  let db2 := { db1 with messages_by_conversation := ml }
  let cs := insertSummary ⟨sender_id, timestamp, cid, receiver_id, content⟩ db2.conversations_by_user
  let db3 := { db2 with conversations_by_user := cs }
  let cr := insertSummary ⟨receiver_id, timestamp, cid, sender_id, content⟩ db3.conversations_by_user
  let db4 := { db3 with conversations_by_user := cr }
  let md := updateMetadata cid timestamp content db4.conversation_metadata
  let db5 := { db4 with conversation_metadata := md }
  (⟨message_id, cid, sender_id, receiver_id, content, timestamp⟩, db5)

/-- MessageModel.get_conversation_messages: SELECT on the conversation
partition with LIMIT (limit + offset), then a Python slice dropping the
first offset rows when offset > 0. -/
def get_conversation_messages (db : DB) (conversation_id : Int)
    (limit offset : Nat) : List MessageRecord :=
  let rows := (List.insertionSort msgKeyGe
      (db.messages_by_conversation.filter
        (fun x => x.conversation_id == conversation_id))).take (limit + offset)
  let messages := if offset > 0 then rows.drop offset else rows
  messages.map msgRecOf

/-- MessageModel.get_messages_before_timestamp: SELECT on the conversation
partition restricted to created_at < before_timestamp, with LIMIT limit. -/
def get_messages_before_timestamp (db : DB) (conversation_id : Int)
    (before_timestamp : Nat) (limit : Nat) : List MessageRecord :=
  let rows := (List.insertionSort msgKeyGe
      (db.messages_by_conversation.filter
        (fun x => x.conversation_id == conversation_id
          && decide (x.created_at < before_timestamp)))).take limit
  rows.map msgRecOf

/-- Item of the conversation list returned by
ConversationModel.get_user_conversations. -/
structure ConversationListItem where
  conversation_id : Int
  other_user_id : Int
  last_updated : Nat
  last_message : String
deriving Repr, DecidableEq

/-- ConversationModel.get_user_conversations: SELECT on the user partition
with LIMIT limit; has_more is computed as len(conversations) == limit. -/
def get_user_conversations (db : DB) (user_id : Int) (limit : Nat) :
    List ConversationListItem × Bool :=
  let rows := (List.insertionSort sumKeyGe
      (db.conversations_by_user.filter (fun x => x.user_id == user_id))).take limit
  let conversations := rows.map (fun row =>
    (⟨row.conversation_id, row.other_user_id, row.last_message_at,
      row.last_message_content⟩ : ConversationListItem))
  (conversations, conversations.length == limit)

/-- View returned by ConversationModel.get_conversation. -/
structure ConversationView where
  conversation_id : Int
  participant_ids : List (Option Int)
  created_at : Nat
  last_updated : Nat
deriving Repr, DecidableEq

/-- ConversationModel.get_conversation.  A null created_at makes the Python
code call isoformat on None, which raises; the model surfaces that as an
error value.  last_updated falls back to created_at when last_message_at is
null, exactly as the conditional expression in the source does. -/
def get_conversation (db : DB) (conversation_id : Int) :
    Except String (Option ConversationView) :=
  match db.conversation_metadata.find?
      (fun x => x.conversation_id == conversation_id) with
  | none => .ok none
  | some row =>
    match row.created_at with
    | none => .error "AttributeError: NoneType object has no attribute isoformat"
    | some ca =>
      let lu := match row.last_message_at with
        | some t => t
        | none => ca
      .ok (some ⟨row.conversation_id, [row.user1_id, row.user2_id], ca, lu⟩)

/-- Error kinds the storage layer can raise during a model call (section 7
of the design: not-found, transient-storage, conflict, invalid-input), with
a representative message string for each. -/
inductive StorageError where
  | notFound : StorageError
  | transientStorage : StorageError
  | conflict : StorageError
  | invalidInput : StorageError
deriving Repr, DecidableEq

/-- Message text str(e) of a storage exception, one representative per kind. -/
def StorageError.message : StorageError → String
  | .notFound => "conversation not found"
  | .transientStorage => "connection to storage timed out"
  | .conflict => "concurrent conversation creation"
  | .invalidInput => "invalid literal for int"

/-- HTTPException value: status code and detail string. -/
structure HTTPError where
  status_code : Nat
  detail : String
deriving Repr, DecidableEq

/-- Exception that can escape the body of a controller method: either a
storage exception or an HTTPException raised by the body itself. -/
inductive PyExc where
  | storage : StorageError → PyExc
  | http : HTTPError → PyExc
deriving Repr, DecidableEq

/-- Message text str(e) of an exception; starlette renders an HTTPException
as status code, colon, detail. -/
def PyExc.message : PyExc → String
  | .storage e => e.message
  | .http h => toString h.status_code ++ ": " ++ h.detail

/-- The except-Exception wrapper every controller method ends with: any
exception escaping the body becomes an HTTP 500 whose detail is a fixed
text followed by str(e). -/
def catchAllAs500 (pre : String) (body : Except PyExc α) : Except HTTPError α :=
  match body with
  | .ok a => .ok a
  | .error e => .error ⟨500, pre ++ e.message⟩

/-- MessageController.send_message over the outcome of the storage call. -/
def ctrl_send_message (storageResult : Except StorageError MessageRecord) :
    Except HTTPError MessageRecord :=
  catchAllAs500 "Failed to send message: "
    (match storageResult with
     | .ok m => .ok m
     | .error e => .error (.storage e))

/-- MessageController.get_conversation_messages over the outcome of the
storage call: has_more is len(messages) == limit. -/
def ctrl_get_conversation_messages
    (storageResult : Except StorageError (List MessageRecord)) (limit : Nat) :
    Except HTTPError (List MessageRecord × Bool) :=
  catchAllAs500 "Failed to get messages: "
    (match storageResult with
     | .ok msgs => .ok (msgs, msgs.length == limit)
     | .error e => .error (.storage e))

/-- MessageController.get_messages_before_timestamp over the outcome of the
storage call. -/
def ctrl_get_messages_before
    (storageResult : Except StorageError (List MessageRecord)) (limit : Nat) :
    Except HTTPError (List MessageRecord × Bool) :=
  catchAllAs500 "Failed to get messages: "
    (match storageResult with
     | .ok msgs => .ok (msgs, msgs.length == limit)
     | .error e => .error (.storage e))

/-- ConversationController.get_user_conversations over the outcome of the
storage call (the model already pairs the list with has_more). -/
def ctrl_get_user_conversations
    (storageResult : Except StorageError (List ConversationListItem × Bool)) :
    Except HTTPError (List ConversationListItem × Bool) :=
  catchAllAs500 "Failed to get conversations: "
    (match storageResult with
     | .ok r => .ok r
     | .error e => .error (.storage e))

/-- ConversationController.create_or_get_conversation over the outcomes of
its two storage calls: resolve the id, then re-read the metadata once.  A
missing row on the re-read raises HTTPException(404), and because the method
has no separate except-HTTPException clause, that exception is caught by the
final except-Exception and rewrapped as a 500. -/
def ctrl_create_or_get_conversation
    (resolveResult : Except StorageError Int)
    (readResult : Int → Except StorageError (Option ConversationView)) :
    Except HTTPError ConversationView :=
  catchAllAs500 "Failed to create conversation: "
    (match resolveResult with
     | .error e => .error (.storage e)
     | .ok cid =>
       match readResult cid with
       | .error e => .error (.storage e)
       | .ok none => .error (.http ⟨404, "Failed to retrieve conversation after creation"⟩)
       | .ok (some conv) => .ok conv)

/-- MessageController.get_conversation_messages on the happy path through
the store model: offset is (page - 1) * limit and has_more is
len(messages) == limit. -/
def ctrl_messages_page (db : DB) (conversation_id : Int) (page limit : Nat) :
    List MessageRecord × Bool :=
  let offset := (page - 1) * limit
  let messages := get_conversation_messages db conversation_id limit offset
  (messages, messages.length == limit)

/-! Helper lemmas about the upsert primitives. -/

theorem mem_insertSummary_iff {s r : SummaryRow} {t : List SummaryRow} :
    s ∈ insertSummary r t ↔ s = r ∨ (s ∈ t ∧ summaryKeyMatch r s = false) := by
  simp [insertSummary, List.mem_filter, and_comm]

theorem canonicalPair_comm (a b : Int) : canonicalPair a b = canonicalPair b a := by
  unfold canonicalPair
  rcases lt_trichotomy a b with h | h | h
  · rw [if_neg (by omega), if_pos (by omega)]
  · subst h; rfl
  · rw [if_pos (by omega), if_neg (by omega)]

/-- C1: a successful send writes the message row into the conversation
partition of the message log, writes one summary row keyed by the sender
with other_user_id the receiver and one keyed by the receiver with
other_user_id the sender, both carrying the content and the created_at of
the message row, and the returned record consists of exactly the persisted
message_id, conversation_id, sender_id, receiver_id, content and timestamp. -/
theorem c1_send_fanout (db : DB) (s r : Int) (c : String) (cid? : Option Int)
    (t m ct : Nat) (n : Int) :
    (⟨(create_message db s r c cid? t m ct n).1.conversation_id, t, m, s, r, c⟩ : MessageRow)
        ∈ (create_message db s r c cid? t m ct n).2.messages_by_conversation
    ∧ (⟨s, t, (create_message db s r c cid? t m ct n).1.conversation_id, r, c⟩ : SummaryRow)
        ∈ (create_message db s r c cid? t m ct n).2.conversations_by_user
    ∧ (⟨r, t, (create_message db s r c cid? t m ct n).1.conversation_id, s, c⟩ : SummaryRow)
        ∈ (create_message db s r c cid? t m ct n).2.conversations_by_user
    ∧ (create_message db s r c cid? t m ct n).1
        = ⟨m, (create_message db s r c cid? t m ct n).1.conversation_id, s, r, c, t⟩ := by
  refine ⟨List.mem_cons_self _ _, ?_, List.mem_cons_self _ _, rfl⟩
  by_cases h : s = r
  · subst h
    exact List.mem_cons_self _ _
  · apply List.mem_cons_of_mem
    apply List.mem_filter.mpr
    refine ⟨List.mem_cons_self _ _, ?_⟩
    simp [summaryKeyMatch, h]

/-- C2: conversation resolution is commutative in the two user ids, and a
second sequential resolution with the same unordered pair returns the same
conversation id and leaves the store unchanged (the lookup row written by
the first call is found, and no second conversation is created). -/
theorem c2_resolution_commutative_idempotent (db : DB) (a b : Int)
    (ts ts2 : Nat) (now now2 : Int) :
    create_or_get_conversation db a b ts now = create_or_get_conversation db b a ts now
    ∧ create_or_get_conversation (create_or_get_conversation db a b ts now).2 a b ts2 now2
        = create_or_get_conversation db a b ts now := by
  constructor
  · simp only [create_or_get_conversation]
    rw [canonicalPair_comm]
  · cases hf : db.user_conversations_lookup.find?
        (fun rr => rr.user1_id == (canonicalPair a b).1 && rr.user2_id == (canonicalPair a b).2) with
    | some rr =>
      simp only [create_or_get_conversation, hf]
    | none =>
      simp only [create_or_get_conversation, hf, insertLookup]
      rw [List.find?_cons_of_pos _ (by simp)]

theorem summaryKeyMatch_eq_false_iff {r x : SummaryRow} :
    summaryKeyMatch r x = false
      ↔ ¬(x.user_id = r.user_id ∧ x.last_message_at = r.last_message_at
            ∧ x.conversation_id = r.conversation_id) := by
  rw [← Bool.not_eq_true]
  simp [summaryKeyMatch, and_assoc]

theorem create_message_conversations_by_user (db : DB) (s r : Int) (c : String)
    (cid : Int) (t m ct : Nat) (n : Int) :
    (create_message db s r c (some cid) t m ct n).2.conversations_by_user
      = insertSummary ⟨r, t, cid, s, c⟩
          (insertSummary ⟨s, t, cid, r, c⟩ db.conversations_by_user) := rfl

/-- C3 is a design requirement the code violates: two resolution calls that
both create a new conversation, for the distinct unordered pairs (1, 2) and
(1, 1002), at the same wall-clock millisecond 1700000000000, derive the very
same conversation id, because the id formula now + u1 * 1000 + u2 % 1000
collides.  The claim demands the two returned ids be distinct; here they are
equal. -/
theorem c3_new_id_collision :
    (create_or_get_conversation emptyDB 1 2 0 1700000000000).1
      = (create_or_get_conversation emptyDB 1 1002 0 1700000000000).1
    ∧ ((1 : Int), (2 : Int)) ≠ ((1 : Int), (1002 : Int)) := by
  decide

/-- Store after resolving the pair (1, 2) from the empty store at wall
clock 50 ms: the derived conversation id is 50 + 1000 + 2 = 1052. -/
def dbAfterResolve : DB := (create_or_get_conversation emptyDB 1 2 0 50).2

/-- Store after user 1 sends content "a" to user 2 at created_at 1. -/
def dbAfterSend1 : DB := (create_message dbAfterResolve 1 2 "a" none 1 11 1 50).2

/-- Store after user 1 additionally sends content "b" to user 2 at
created_at 2. -/
def dbAfterSend2 : DB := (create_message dbAfterSend1 1 2 "b" none 2 12 2 50).2

/-- C4 counterexample: conversation 1052 has two messages, yet four summary
rows for it exist in conversations_by_user, not exactly two, because each
send keys its summary rows by the new last_message_at and so never
overwrites the rows written by the previous send. -/
theorem c4_counterexample :
    (dbAfterSend2.messages_by_conversation.filter
        (fun r => r.conversation_id == 1052)).length = 2
    ∧ (dbAfterSend2.conversations_by_user.filter
        (fun r => r.conversation_id == 1052)).length = 4 := by
  decide

/-- C4 amended: summary rows are keyed by (user_id, last_message_at,
conversation_id); a send overwrites a participant summary row only when it
carries the same created_at, and two sends between the same pair at distinct
timestamps leave four pairwise-distinct summary rows for the conversation in
the store.  In detail: after send(a, b, c1) at t1 followed by send(a, b, c2)
at t2 with t1 and t2 distinct, all four rows are present and pairwise
distinct, while replaying the second send at the same timestamp t1 removes
the sender row carrying c1 and leaves the row carrying c2. -/
theorem c4_amended_summary_rows_accumulate (db : DB) (a b cid : Int)
    (c1 c2 : String) (t1 t2 m1 m2 ct1 ct2 : Nat) (n1 n2 : Int)
    (hab : a ≠ b) (ht : t1 ≠ t2) (hc : c1 ≠ c2) :
    ((⟨a, t1, cid, b, c1⟩ : SummaryRow)
        ∈ (create_message (create_message db a b c1 (some cid) t1 m1 ct1 n1).2
            a b c2 (some cid) t2 m2 ct2 n2).2.conversations_by_user)
    ∧ ((⟨b, t1, cid, a, c1⟩ : SummaryRow)
        ∈ (create_message (create_message db a b c1 (some cid) t1 m1 ct1 n1).2
            a b c2 (some cid) t2 m2 ct2 n2).2.conversations_by_user)
    ∧ ((⟨a, t2, cid, b, c2⟩ : SummaryRow)
        ∈ (create_message (create_message db a b c1 (some cid) t1 m1 ct1 n1).2
            a b c2 (some cid) t2 m2 ct2 n2).2.conversations_by_user)
    ∧ ((⟨b, t2, cid, a, c2⟩ : SummaryRow)
        ∈ (create_message (create_message db a b c1 (some cid) t1 m1 ct1 n1).2
            a b c2 (some cid) t2 m2 ct2 n2).2.conversations_by_user)
    ∧ List.Pairwise Ne
        [(⟨a, t1, cid, b, c1⟩ : SummaryRow), ⟨b, t1, cid, a, c1⟩,
          ⟨a, t2, cid, b, c2⟩, ⟨b, t2, cid, a, c2⟩]
    ∧ ((⟨a, t1, cid, b, c1⟩ : SummaryRow)
        ∉ (create_message (create_message db a b c1 (some cid) t1 m1 ct1 n1).2
            a b c2 (some cid) t1 m2 ct2 n2).2.conversations_by_user)
    ∧ ((⟨a, t1, cid, b, c2⟩ : SummaryRow)
        ∈ (create_message (create_message db a b c1 (some cid) t1 m1 ct1 n1).2
            a b c2 (some cid) t1 m2 ct2 n2).2.conversations_by_user) := by
  simp only [create_message_conversations_by_user]
  refine ⟨?_, ?_, ?_, ?_, ?_, ?_, ?_⟩ <;>
    simp [mem_insertSummary_iff, summaryKeyMatch_eq_false_iff, SummaryRow.mk.injEq,
      List.pairwise_cons, hab, ht, hc, Ne.symm hab, Ne.symm ht, Ne.symm hc]

/-- C10: when the metadata row of a conversation has a null last_message_at,
get_conversation does not fail and falls back to created_at for the
last_updated field, so the caller receives a well-formed timestamp. -/
theorem c10_null_last_message_fallback (db : DB) (cid : Int)
    (row : MetadataRow) (ca : Nat)
    (hfind : db.conversation_metadata.find?
        (fun x => x.conversation_id == cid) = some row)
    (hnull : row.last_message_at = none) (hca : row.created_at = some ca) :
    get_conversation db cid
      = .ok (some ⟨row.conversation_id, [row.user1_id, row.user2_id], ca, ca⟩) := by
  simp [get_conversation, hfind, hca, hnull]

/-- Witness for C10 at a concrete store: resolving the pair (5, 9) from the
empty store writes a metadata row with null last_message_at, and reading
conversation 5109 back returns created_at as last_updated. -/
theorem c10_witness :
    ((create_or_get_conversation emptyDB 5 9 7 100).2).conversation_metadata.find?
        (fun x => x.conversation_id == 5109)
      = some ⟨5109, some 5, some 9, some 7, none, none⟩
    ∧ get_conversation (create_or_get_conversation emptyDB 5 9 7 100).2 5109
        = .ok (some ⟨5109, [some 5, some 9], 7, 7⟩) :=
  ⟨by decide,
    c10_null_last_message_fallback _ 5109 ⟨5109, some 5, some 9, some 7, none, none⟩ 7
      (by decide) rfl rfl⟩

/-- C5: for a limit of at least 1 and a page of at least 1, the message page
returns at most limit messages and its has_more flag is true exactly when
the returned count equals limit; the user conversation list obeys the same
bound and the same has_more rule. -/
theorem c5_pagination_bound (db : DB) (cid user : Int) (page limit : Nat)
    (hp : 1 ≤ page) (hl : 1 ≤ limit) :
    ((ctrl_messages_page db cid page limit).1.length ≤ limit
      ∧ ((ctrl_messages_page db cid page limit).2 = true
          ↔ (ctrl_messages_page db cid page limit).1.length = limit))
    ∧ ((get_user_conversations db user limit).1.length ≤ limit
      ∧ ((get_user_conversations db user limit).2 = true
          ↔ (get_user_conversations db user limit).1.length = limit)) := by
  refine ⟨⟨?_, ?_⟩, ?_, ?_⟩
  · simp only [ctrl_messages_page, get_conversation_messages, List.length_map]
    generalize (page - 1) * limit = off
    split
    · rw [List.length_drop, List.length_take]; omega
    · rw [List.length_take]; omega
  · simp only [ctrl_messages_page]
    exact beq_iff_eq
  · simp only [get_user_conversations, List.length_map]
    rw [List.length_take]; omega
  · simp only [get_user_conversations, List.length_map]
    exact beq_iff_eq

/-- Witness for C5 at the empty store with page 1 and limit 1. -/
theorem c5_witness :
    (1 : Nat) ≤ 1 ∧ (1 : Nat) ≤ 1
    ∧ (((ctrl_messages_page emptyDB 0 1 1).1.length ≤ 1
        ∧ ((ctrl_messages_page emptyDB 0 1 1).2 = true
            ↔ (ctrl_messages_page emptyDB 0 1 1).1.length = 1))
      ∧ ((get_user_conversations emptyDB 0 1).1.length ≤ 1
        ∧ ((get_user_conversations emptyDB 0 1).2 = true
            ↔ (get_user_conversations emptyDB 0 1).1.length = 1))) :=
  ⟨Nat.le_refl 1, Nat.le_refl 1,
    c5_pagination_bound emptyDB 0 0 1 1 (Nat.le_refl 1) (Nat.le_refl 1)⟩

/-- C6: the message page is ordered most-recent-first by
(created_at desc, message_id desc): every message is followed only by
messages whose key is no greater, so a message created strictly earlier than
another appears strictly after it in the returned list. -/
theorem c6_messages_most_recent_first (db : DB) (cid : Int) (limit offset : Nat) :
    (get_conversation_messages db cid limit offset).Pairwise
      (fun m1 m2 => m2.timestamp < m1.timestamp
        ∨ (m2.timestamp = m1.timestamp ∧ m2.message_id ≤ m1.message_id)) := by
  unfold get_conversation_messages
  rw [List.pairwise_map]
  have hs : List.Pairwise msgKeyGe (List.insertionSort msgKeyGe
      (db.messages_by_conversation.filter (fun x => x.conversation_id == cid))) :=
    List.sorted_insertionSort msgKeyGe _
  have hsub : List.Sublist
      (if offset > 0
        then ((List.insertionSort msgKeyGe
          (db.messages_by_conversation.filter
            (fun x => x.conversation_id == cid))).take (limit + offset)).drop offset
        else (List.insertionSort msgKeyGe
          (db.messages_by_conversation.filter
            (fun x => x.conversation_id == cid))).take (limit + offset))
      (List.insertionSort msgKeyGe
        (db.messages_by_conversation.filter (fun x => x.conversation_id == cid))) := by
    split
    · exact (List.drop_sublist _ _).trans (List.take_sublist _ _)
    · exact List.take_sublist _ _
  exact (List.Pairwise.sublist hsub hs).imp (fun h => h)

/-- C7: every message returned by the before-timestamp read has created_at
strictly below the given bound. -/
theorem c7_before_timestamp_filter (db : DB) (cid : Int) (t limit : Nat)
    (m : MessageRecord) (hm : m ∈ get_messages_before_timestamp db cid t limit) :
    m.timestamp < t := by
  unfold get_messages_before_timestamp at hm
  obtain ⟨row, hrow, hEq⟩ := List.mem_map.mp hm
  have h1 := List.mem_of_mem_take hrow
  have h2 := (List.mem_insertionSort msgKeyGe).mp h1
  have h3 := (List.mem_filter.mp h2).2
  rw [Bool.and_eq_true] at h3
  have h4 := of_decide_eq_true h3.2
  subst hEq
  exact h4

/-- Witness for C7: in the store where user 1 sent "a" to user 2 at
created_at 1, the read before timestamp 10 returns that message, and its
timestamp is below 10. -/
theorem c7_witness :
    (⟨11, 1052, 1, 2, "a", 1⟩ : MessageRecord)
        ∈ get_messages_before_timestamp dbAfterSend1 1052 10 20
    ∧ (⟨11, 1052, 1, 2, "a", 1⟩ : MessageRecord).timestamp < 10 :=
  ⟨by decide, c7_before_timestamp_filter dbAfterSend1 1052 10 20 _ (by decide)⟩

/-- C8 is a requirement the code does not implement: when resolution
succeeds and the immediate re-read of the conversation returns no row, the
controller performs no retry at all; the HTTPException(404) it raises is
swallowed by its own except-Exception clause and the caller receives a
single generic HTTP 500, not a retried transient-storage outcome. -/
theorem c8_no_retry_generic_500 :
    ctrl_create_or_get_conversation (.ok 7) (fun _ => .ok none)
      = .error ⟨500,
          "Failed to create conversation: 404: Failed to retrieve conversation after creation"⟩ := by
  rfl

/-- C9: whatever error kind the storage layer raises during sendMessage,
listConversationMessages, listMessagesBefore, listUserConversations or
resolveOrCreateConversation, the controller maps it to an HTTP 500 carrying
only a message string, so the status the caller sees is 500 for every kind
and no distinguishable error kind propagates. -/
theorem c9_generic_failure_mapping (e : StorageError) (limit : Nat)
    (readResult : Int → Except StorageError (Option ConversationView)) :
    ctrl_send_message (.error e)
        = .error ⟨500, "Failed to send message: " ++ e.message⟩
    ∧ ctrl_get_conversation_messages (.error e) limit
        = .error ⟨500, "Failed to get messages: " ++ e.message⟩
    ∧ ctrl_get_messages_before (.error e) limit
        = .error ⟨500, "Failed to get messages: " ++ e.message⟩
    ∧ ctrl_get_user_conversations (.error e)
        = .error ⟨500, "Failed to get conversations: " ++ e.message⟩
    ∧ ctrl_create_or_get_conversation (.error e) readResult
        = .error ⟨500, "Failed to create conversation: " ++ e.message⟩ :=
  ⟨rfl, rfl, rfl, rfl, rfl⟩

/-- Witness for the amended C4 at concrete inputs: user 1 sends "a" then "b"
to user 2 in conversation 7 at timestamps 1 and 2. -/
theorem c4_amended_witness :
    ((1 : Int) ≠ 2 ∧ (1 : Nat) ≠ 2 ∧ "a" ≠ "b")
    ∧ (((⟨1, 1, 7, 2, "a"⟩ : SummaryRow)
        ∈ (create_message (create_message emptyDB 1 2 "a" (some 7) 1 11 0 0).2
            1 2 "b" (some 7) 2 12 0 0).2.conversations_by_user)
    ∧ ((⟨2, 1, 7, 1, "a"⟩ : SummaryRow)
        ∈ (create_message (create_message emptyDB 1 2 "a" (some 7) 1 11 0 0).2
            1 2 "b" (some 7) 2 12 0 0).2.conversations_by_user)
    ∧ ((⟨1, 2, 7, 2, "b"⟩ : SummaryRow)
        ∈ (create_message (create_message emptyDB 1 2 "a" (some 7) 1 11 0 0).2
            1 2 "b" (some 7) 2 12 0 0).2.conversations_by_user)
    ∧ ((⟨2, 2, 7, 1, "b"⟩ : SummaryRow)
        ∈ (create_message (create_message emptyDB 1 2 "a" (some 7) 1 11 0 0).2
            1 2 "b" (some 7) 2 12 0 0).2.conversations_by_user)
    ∧ List.Pairwise Ne
        [(⟨1, 1, 7, 2, "a"⟩ : SummaryRow), ⟨2, 1, 7, 1, "a"⟩,
          ⟨1, 2, 7, 2, "b"⟩, ⟨2, 2, 7, 1, "b"⟩]
    ∧ ((⟨1, 1, 7, 2, "a"⟩ : SummaryRow)
        ∉ (create_message (create_message emptyDB 1 2 "a" (some 7) 1 11 0 0).2
            1 2 "b" (some 7) 1 12 0 0).2.conversations_by_user)
    ∧ ((⟨1, 1, 7, 2, "b"⟩ : SummaryRow)
        ∈ (create_message (create_message emptyDB 1 2 "a" (some 7) 1 11 0 0).2
            1 2 "b" (some 7) 1 12 0 0).2.conversations_by_user)) :=
  ⟨⟨by decide, by decide, by decide⟩,
    c4_amended_summary_rows_accumulate emptyDB 1 2 7 "a" "b" 1 2 11 12 0 0 0 0
      (by decide) (by decide) (by decide)⟩
